import Mathlib

/-!
Verification of the jobby repository (github.com/gopheryan/jobby) against its
natural-language specification.  The Go source is shallowly embedded: each Go
function that a claim touches is translated into an executable Lean definition,
state is passed explicitly, and goroutine bodies are modelled as traces of
observable actions in program order.
-/

namespace Jobby

/-! ## Errors

Go `error` values are modelled as an inductive type.  `eof` is `io.EOF`;
`other` covers any other concrete error (e.g. a failed `os.File.Read`);
`watcherWrapped e` is the streamer's
`fmt.Errorf("watcher encountered unexpected error: %w", e)`;
`unexpectedEvent m` is the watcher's
`fmt.Errorf("unexpected event returned from watch '%d'", mask)`. -/

inductive GoError where
  | eof
  | other (msg : String)
  | watcherWrapped (e : GoError)
  | unexpectedEvent (mask : Nat)
  deriving DecidableEq, Repr

/-- Model of `errors.Join` restricted to two operands: `nil` operands are
dropped; if both are non-nil the two are kept as a joined pair, which we
represent by the first (the joined value is non-nil iff either is; claims only
inspect nil-ness and the first cause). -/
def errJoin : Option GoError → Option GoError → Option GoError
  | none, none => none
  | some e, _ => some e
  | none, some e => some e

/-! ## Live file streamer (src/streamer/streamer.go)

`LiveFileStreamer` carries the mutable fields of the Go struct that the `Read`
path touches: `useWatch` and the sticky `done` error.  A single call to `Read`
consumes at most one receive from the watcher's events channel and at most one
underlying `os.File.Read`; the results the environment hands to those two
operations during one call are collected in `ReadEnv`. -/

/-- Outcome of one underlying `os.File.Read` on a regular file: `data n` is a
successful read of `n` bytes (`n > 0` for a well-formed file read), `eof` is
`(0, io.EOF)`, `fail e` is `(0, e)` for a non-EOF error. -/
inductive FileReadResult where
  | data (n : Nat)
  | eof
  | fail (e : GoError)
  deriving DecidableEq, Repr

/-- Environment of a single `Read` call: `chanOk` is the `ok` of
`<-l.WriteWatcher.Events()` (false means the channel is closed), `fileRes` is
what `l.File.Read` returns if called, `watcherErr` is `l.WriteWatcher.Error()`
if inspected. -/
structure ReadEnv where
  chanOk : Bool
  fileRes : FileReadResult
  watcherErr : Option GoError
  deriving DecidableEq, Repr

/-- Well-formedness of the environment: a successful file read delivers at
least one byte (Go's `os.File.Read` never returns `(0, nil)` for a non-empty
buffer; end of file is reported as `io.EOF`). -/
@[reducible] def ReadEnv.wf (env : ReadEnv) : Prop :=
  match env.fileRes with
  | .data n => 0 < n
  | _ => True

/-- Mutable state of the Go `LiveFileStreamer` relevant to `Read`. -/
structure LiveFileStreamer where
  useWatch : Bool
  done : Option GoError
  deriving DecidableEq, Repr

/-- State of a freshly constructed streamer (`NewLiveFileStreamer`): zero
values for `useWatch` and `done`. -/
def initStreamer : LiveFileStreamer := { useWatch := false, done := none }

/-- Embedding of `LiveFileStreamer.fileRead`: perform one underlying file
read; on `io.EOF` set `useWatch` and report `(0, nil)`; on any other error set
the sticky `done` and return it. -/
def LiveFileStreamer.fileRead (l : LiveFileStreamer) (r : FileReadResult) :
    LiveFileStreamer × Nat × Option GoError :=
  match r with
  | .data n => (l, n, none)
  | .eof => ({ l with useWatch := true }, 0, none)
  | .fail e => ({ l with done := some e }, 0, some e)

/-- Embedding of `LiveFileStreamer.Read`.  Returns the updated streamer state
together with the Go return pair `(count, err)`. -/
def LiveFileStreamer.Read (l : LiveFileStreamer) (env : ReadEnv) :
    LiveFileStreamer × Nat × Option GoError :=
  match l.done with
  | some e => (l, 0, some e)
  | none =>
    if !l.useWatch then
      l.fileRead env.fileRes
    else if env.chanOk then
      l.fileRead env.fileRes
    else
      let res := l.fileRead env.fileRes
      if res.2.1 = 0 ∧ res.2.2 = none ∧ res.1.useWatch then
        let d : GoError :=
          match env.watcherErr with
          | some we => .watcherWrapped we
          | none => .eof
        ({ res.1 with done := some d }, 0, some d)
      else
        res

/-- The spec's single-call read contract: at least one byte with no error,
zero bytes with end-of-stream, or zero bytes with a terminal error. -/
@[reducible] def readOutcomeSpecOk (n : Nat) (e : Option GoError) : Prop :=
  (0 < n ∧ e = none) ∨ (n = 0 ∧ e = some .eof) ∨ (n = 0 ∧ e ≠ none)

/-! ## File write watcher (src: streamer package, `newWatcher`)

The watcher's background goroutine reads fixed-size inotify event records from
the notification descriptor and reacts to each record's mask.  The sequence of
`readEvent` results it consumes is modelled as a list. -/

/-- Value of `unix.IN_MODIFY`. -/
def IN_MODIFY : Nat := 2

/-- Value of `unix.IN_IGNORED`. -/
def IN_IGNORED : Nat := 32768

/-- Outcome of one `readEvent` call inside the watcher goroutine: an inotify
event record with its mask, or a read error. -/
inductive WatchRead where
  | event (mask : Nat)
  | fail (e : GoError)
  deriving DecidableEq, Repr

/-- Embedding of the read loop of the goroutine launched by `newWatcher`: it
consumes `readEvent` results until the loop exits, and yields the number of
pulses sent on the events channel together with the loop's final `readError`
(none on clean termination).  An exhausted input list corresponds to a loop
still blocked in `readEvent`, for which we report the state so far. -/
def watcherLoop : List WatchRead → Nat × Option GoError
  | [] => (0, none)
  | .fail e :: _ => (0, some e)
  | .event m :: rest =>
    if m &&& IN_MODIFY > 0 then
      let r := watcherLoop rest
      (r.1 + 1, r.2)
    else if m &&& IN_IGNORED = 0 then
      (0, some (.unexpectedEvent m))
    else
      (0, none)

/-- Error stored in the watcher's `err` field after the goroutine's loop: the
loop's `readError` joined with the error of `unix.Close(fd)`. -/
def watcherFinalError (loopErr closeFdErr : Option GoError) : Option GoError :=
  errJoin loopErr closeFdErr

/-- Actions relevant to the close handshake between the watcher goroutine and
`FileWriteWatcher.Close`: after its loop the goroutine performs
`<-closeSync` (`awaitCloseSync`) and then `unix.Close(fd)` (`releaseFd`);
`Close` performs `unix.InotifyRmWatch` (`rmWatch`) and then
`close(w.closeSync)` (`closeCloseSync`). -/
inductive WatcherAct where
  | awaitCloseSync
  | releaseFd
  | rmWatch
  | closeCloseSync
  deriving DecidableEq, Repr

/-- Fuel-driven worker for `interleave` (structural recursion on the fuel so
that the kernel can evaluate it). -/
def interleaveFuel : Nat → List α → List α → List (List α)
  | 0, _, _ => []
  | _ + 1, [], ys => [ys]
  | _ + 1, x :: xs, [] => [x :: xs]
  | fuel + 1, x :: xs, y :: ys =>
    (interleaveFuel fuel xs (y :: ys)).map (fun t => x :: t) ++
      (interleaveFuel fuel (x :: xs) ys).map (fun t => y :: t)

/-- All interleavings of two sequences of actions (each sequence's internal
order is preserved). -/
def interleave (xs ys : List α) : List (List α) :=
  interleaveFuel (xs.length + ys.length) xs ys

/-- Program-order action list of the watcher goroutine after its read loop. -/
def watcherTail : List WatcherAct := [.awaitCloseSync, .releaseFd]

/-- Program-order action list of the body of `FileWriteWatcher.Close` (inside
its `closeOnce.Do`). -/
def closeBody : List WatcherAct := [.rmWatch, .closeCloseSync]

/-! ## Job (src/job/job.go) -/

/-- Go `syscall.WaitStatus` of a reaped child: a normal exit with a code, or
termination by a signal. -/
inductive WaitStatus where
  | exited (code : Nat)
  | signaled (sig : Nat)
  deriving DecidableEq, Repr

/-- Behavior of `syscall.WaitStatus.Signal()` for a reaped child: the signal
number when terminated by a signal, `-1` otherwise. -/
def WaitStatus.signal : WaitStatus → Int
  | .signaled s => (s : Int)
  | .exited _ => -1

/-- Value of `syscall.SIGKILL`. -/
def SIGKILL : Int := 9

/-- Go `exec.ExitError` as produced by `exec.Cmd.Wait` for a child that
terminated unsuccessfully.  `sys` is `ProcessState.Sys()`; on Unix the type
assertion to `syscall.WaitStatus` always succeeds, so it is modelled as a
plain field. -/
structure ExitError where
  sys : WaitStatus
  deriving DecidableEq, Repr

/-- Behavior of `exec.ExitError.ExitCode()` (= `ProcessState.ExitCode()`): the
exit code for a normal exit, `-1` when the child was terminated by a
signal. -/
def ExitError.exitCode : ExitError → Int
  | ⟨.exited c⟩ => (c : Int)
  | ⟨.signaled _⟩ => -1

/-- The `job.State` values (`JobStatusRunning`, `JobstatusComplete`,
`JobStatusStopped`; in Go these are distinct string constants, modelled as an
enumeration). -/
inductive State where
  | running
  | complete
  | stopped
  deriving DecidableEq, Repr

/-- Embedding of `newState` from src/job/job.go. -/
def newState (processExited userKilled : Bool) (e : Option ExitError) : State :=
  if processExited then
    match e with
    | some ee =>
      if ee.exitCode = -1 then
        if ee.sys.signal = SIGKILL ∧ userKilled then State.stopped
        else State.complete
      else State.complete
    | none => State.complete
  else State.running

/-- The `job.Status` struct. -/
structure Status where
  CurrentState : State
  ReturnCode : Option Int
  deriving DecidableEq, Repr

/-- Snapshot of the mutable fields of `job.Job` that `Status` reads under the
job lock. -/
structure JobSnap where
  processExited : Bool
  userKilled : Bool
  exitErr : Option ExitError
  deriving DecidableEq, Repr

/-- Embedding of `Job.Status`: derive the state via `newState` and surface the
exit code exactly when `exitErr` is non-nil. -/
def JobSnap.Status (j : JobSnap) : Status :=
  { CurrentState := newState j.processExited j.userKilled j.exitErr
    ReturnCode := j.exitErr.map ExitError.exitCode }

/-- Observable actions of the supervision goroutine launched by `job.New`. -/
inductive SupAct where
  | waitChild
  | lockJob
  | fireWriterDone
  | setExitState
  | unlockJob
  | closeStderrFile
  | closeStdoutFile
  deriving DecidableEq, Repr

/-- Program-order trace of the supervision goroutine in `job.New`: the body
runs `c.Wait()`, takes the job lock, fires the writer-done signal
(`close(newJob.processDone)`), and mutates the exit state; then the three
deferred calls run in LIFO order of registration: the lock release (registered
last), then `logFileClose(stderrFile)`, then `logFileClose(stdoutFile)`. -/
def supervisionTrace : List SupAct :=
  [.waitChild, .lockJob, .fireWriterDone, .setExitState,
   .unlockJob, .closeStderrFile, .closeStdoutFile]

/-- The `job.JobArgs` struct. -/
structure JobArgs where
  Command : String
  Args : List String
  StdoutPath : String
  StderrPath : String
  deriving DecidableEq, Repr

/-- The fields of `exec.Cmd` that `job.New` populates for the spawn. -/
structure Cmd where
  Path : String
  Args : List String
  deriving DecidableEq, Repr

/-- The `exec.Cmd` constructed at the top of `job.New`. -/
def newCmd (args : JobArgs) : Cmd := { Path := args.Command, Args := args.Args }

/-- Argument vector the child receives when the command starts, per the
os/exec contract: `Args` holds the full command line including the command as
element 0; if `Args` is empty or nil, `{Path}` is used instead. -/
def Cmd.argv (c : Cmd) : List String :=
  if c.Args.isEmpty then [c.Path] else c.Args

/-! ## gRPC service (src/internal/service/service.go) -/

/-- The gRPC status codes this service produces. -/
inductive GrpcCode where
  | invalidArgument
  | notFound
  | internal
  | cancelled
  deriving DecidableEq, Repr

/-- A gRPC error status: code plus message. -/
structure GrpcStatus where
  code : GrpcCode
  msg : String
  deriving DecidableEq, Repr

/-- Model of `uuid.FromBytes`: succeeds exactly on a 16-byte slice, yielding
the identifier (kept as its byte list). -/
def uuidFromBytes (b : List Nat) : Option (List Nat) :=
  if b.length = 16 then some b else none

/-- Lower-case hexadecimal digit for a value below 16. -/
def hexDigit (n : Nat) : Char :=
  if n < 10 then Char.ofNat (48 + n) else Char.ofNat (87 + n)

/-- Two-digit lower-case hexadecimal rendering of one byte. -/
def byteHex (b : Nat) : String :=
  String.mk [hexDigit (b / 16 % 16), hexDigit (b % 16)]

/-- Hexadecimal rendering of a byte list. -/
def bytesHex (bs : List Nat) : String :=
  String.join (bs.map byteHex)

/-- Model of `uuid.UUID.String()`: canonical hyphenated form
8-4-4-4-12 over the 16 bytes. -/
def uuidString (u : List Nat) : String :=
  bytesHex (u.take 4) ++ "-" ++ bytesHex ((u.drop 4).take 2) ++ "-" ++
    bytesHex ((u.drop 6).take 2) ++ "-" ++ bytesHex ((u.drop 8).take 2) ++ "-" ++
    bytesHex (u.drop 10)

/-- Model of `filepath.Join` for a clean, non-empty base directory and a
relative element. -/
def filepathJoin (base elem : String) : String := base ++ "/" ++ elem

/-- Embedding of `outFilePath` (the Go parameter carrying the stream name is
spelled differently here for lexical reasons only):
`filepath.Join(base, fmt.Sprintf("%s-%s", u.String(), part))`. -/
def outFilePath (base : String) (u : List Nat) (part : String) : String :=
  filepathJoin base (uuidString u ++ "-" ++ part)

/-- The service's `jobData` record. -/
structure JobData where
  Owner : String
  Job : JobSnap
  deriving DecidableEq, Repr

/-- The registry's `jobDirectory` map, modelled as an association list keyed
by the 16-byte identifier. -/
abbrev JobDirectory := List (List Nat × JobData)

/-- Embedding of `loadJob`: look the identifier up in the map (every stored
value has the `jobData` type, so the type assertion succeeds). -/
def loadJob (m : JobDirectory) (id : List Nat) : Option JobData :=
  (m.find? (fun p => p.1 == id)).map Prod.snd

/-- Embedding of `Jobby.getJob`: parse the raw identifier bytes; reject a
malformed identifier with invalid-argument; return the record only when it
exists and its owner equals the requesting user, and otherwise — for a missing
entry and for an owner mismatch alike — return the one not-found status. -/
def getJob (dir : JobDirectory) (user : String) (rawId : List Nat) :
    Except GrpcStatus JobData :=
  match uuidFromBytes rawId with
  | none => .error { code := .invalidArgument, msg := "Must provide valid job id" }
  | some id =>
    match loadJob dir id with
    | some jd =>
      if jd.Owner = user then .ok jd
      else .error { code := .notFound, msg := "No such job exists" }
    | none => .error { code := .notFound, msg := "No such job exists" }

/-- The wire status enumeration (`jobmanagerpb.Status`). -/
inductive PbStatus where
  | unspecified
  | running
  | stopped
  | complete
  deriving DecidableEq, Repr

/-- Embedding of `jobStateToStatus` (the Go default branch returning
`unspecified` is unreachable for the three defined state constants). -/
def jobStateToStatus : State → PbStatus
  | .running => .running
  | .stopped => .stopped
  | .complete => .complete

/-- Conversion `int` → `int32` performed by `GetStatus`'s `convertExitCode`,
as two's-complement wrap-around at 32 bits. -/
def wrap32 (i : Int) : Int := (i + 2 ^ 31) % 2 ^ 32 - 2 ^ 31

/-- The wire `GetStatusRequest` (its `job_id` bytes). -/
structure GetStatusRequest where
  JobId : List Nat
  deriving DecidableEq, Repr

/-- The wire `GetStatusResponse`. -/
structure GetStatusResponse where
  CurrentStatus : PbStatus
  ExitCode : Option Int
  deriving DecidableEq, Repr

/-- Embedding of `Jobby.GetStatus`: look the job up via `getJob`, then report
the derived state and the (optional) exit code converted to 32 bits. -/
def GetStatus (dir : JobDirectory) (user : String) (req : GetStatusRequest) :
    Except GrpcStatus GetStatusResponse :=
  match getJob dir user req.JobId with
  | .error st => .error st
  | .ok jd =>
    .ok { CurrentStatus := jobStateToStatus jd.Job.Status.CurrentState
          ExitCode := jd.Job.Status.ReturnCode.map wrap32 }

/-- The wire `StartJobRequest`. -/
structure StartJobRequest where
  Command : String
  Args : List String
  deriving DecidableEq, Repr

/-- Embedding of the request-handling logic of `Jobby.StartJob` up to its call
of `job.New`: reject an empty command with invalid-argument, then build the
`JobArgs` passed to `job.New` for the freshly drawn identifier `jobId` (random
in Go, a parameter here).  The stdout file name uses the part "stdout" and the
stderr file name the part "sterr", exactly as written in the source. -/
def StartJob (directory : String) (jobId : List Nat) (req : StartJobRequest) :
    Except GrpcStatus JobArgs :=
  if req.Command = "" then
    .error { code := .invalidArgument, msg := "Must provide non-empty command" }
  else
    .ok { Command := req.Command
          Args := req.Args
          StdoutPath := outFilePath directory jobId "stdout"
          StderrPath := outFilePath directory jobId "sterr" }

/-! ## Concrete instances used by witnesses and counterexamples -/

/-- The all-zero 16-byte identifier. -/
def idA : List Nat := List.replicate 16 0

/-- A 16-byte identifier distinct from `idA`. -/
def idB : List Nat := 1 :: List.replicate 15 0

/-- Snapshot of a job whose child exited naturally with code 0: `Wait`
returned a nil error, so `exitErr` is nil. -/
def exitZeroJob : JobSnap :=
  { processExited := true, userKilled := false, exitErr := none }

/-- Snapshot of a job stopped by the user: killed by SIGKILL with the
`userKilled` flag set. -/
def stoppedJob : JobSnap :=
  { processExited := true, userKilled := true,
    exitErr := some ⟨WaitStatus.signaled 9⟩ }

/-- A directory with one job owned by the principal "alice". -/
def aliceDir : JobDirectory :=
  [(idA, { Owner := "alice", Job := exitZeroJob })]

/-- Read environment delivering three bytes from the file. -/
def envData3 : ReadEnv :=
  { chanOk := false, fileRes := .data 3, watcherErr := none }

/-- Read environment whose file read fails with a non-EOF error. -/
def envFail : ReadEnv :=
  { chanOk := false, fileRes := .fail (.other "read failed"), watcherErr := none }

/-! ## Theorems for the claims -/

/-- C1 (counterexample): the claim says a single `Read` call returns at least
one byte with no error, zero bytes with end-of-stream, or zero bytes with a
terminal error, and never zero bytes with no error.  But the first `Read` on a
fresh streamer whose file holds no unread data performs a file read that hits
`io.EOF`, flips `useWatch`, and returns zero bytes with a nil error — an
outcome outside the claimed three. -/
theorem c1_read_contract_counterexample :
    ¬ readOutcomeSpecOk
        (LiveFileStreamer.Read initStreamer
          { chanOk := false, fileRes := .eof, watcherErr := none }).2.1
        (LiveFileStreamer.Read initStreamer
          { chanOk := false, fileRes := .eof, watcherErr := none }).2.2 := by
  decide

/-- C1 (amended): a single `Read` call returns at least one byte with no
error, zero bytes with end-of-stream or a terminal error, or — exactly when
the call has just observed the current end of file — zero bytes with no error,
leaving the streamer in watch mode with no sticky error; a call never returns
bytes together with an error. -/
theorem c1_read_contract_amended (l : LiveFileStreamer) (env : ReadEnv)
    (h : env.wf) :
    (0 < (l.Read env).2.1 → (l.Read env).2.2 = none) ∧
    ((l.Read env).2.2 ≠ none → (l.Read env).2.1 = 0) ∧
    ((l.Read env).2.1 = 0 ∧ (l.Read env).2.2 = none →
      (l.Read env).1.useWatch = true ∧ (l.Read env).1.done = none) := by
  rcases l with ⟨uw, d⟩
  rcases env with ⟨ck, fr, we⟩
  cases d <;> cases uw <;> cases ck <;> cases fr <;> cases we <;>
    simp_all [LiveFileStreamer.Read, LiveFileStreamer.fileRead, ReadEnv.wf,
      Nat.pos_iff_ne_zero]

/-- C1 (witness): the amended read contract instantiated at a fresh streamer
whose file read returns three bytes. -/
theorem c1_read_contract_amended_witness :
    (0 < (LiveFileStreamer.Read initStreamer envData3).2.1 →
      (LiveFileStreamer.Read initStreamer envData3).2.2 = none) ∧
    ((LiveFileStreamer.Read initStreamer envData3).2.2 ≠ none →
      (LiveFileStreamer.Read initStreamer envData3).2.1 = 0) ∧
    ((LiveFileStreamer.Read initStreamer envData3).2.1 = 0 ∧
        (LiveFileStreamer.Read initStreamer envData3).2.2 = none →
      (LiveFileStreamer.Read initStreamer envData3).1.useWatch = true ∧
        (LiveFileStreamer.Read initStreamer envData3).1.done = none) :=
  c1_read_contract_amended initStreamer envData3 (by simp [envData3, ReadEnv.wf])

/-- Helper: whenever `Read` returns an error, that error has been recorded in
the sticky `done` cell of the resulting state. -/
theorem read_err_sets_done (l : LiveFileStreamer) (env : ReadEnv) (e : GoError)
    (h : (l.Read env).2.2 = some e) : (l.Read env).1.done = some e := by
  rcases l with ⟨uw, d⟩
  rcases env with ⟨ck, fr, we⟩
  cases d <;> cases uw <;> cases ck <;> rcases fr with n | _ | e2 <;> cases we <;>
    first
      | (simp_all [LiveFileStreamer.Read, LiveFileStreamer.fileRead]; done)
      | (by_cases hn : n = 0 <;>
          simp_all [LiveFileStreamer.Read, LiveFileStreamer.fileRead])

/-- Helper: a streamer whose sticky `done` cell is set short-circuits every
`Read` to the recorded outcome, leaving the state unchanged. -/
theorem read_of_done (l : LiveFileStreamer) (env : ReadEnv) (e : GoError)
    (h : l.done = some e) : l.Read env = (l, 0, some e) := by
  unfold LiveFileStreamer.Read
  rw [h]

/-- C5: once a `Read` call has returned end-of-stream or a terminal error,
that exact error is recorded in the sticky `done` cell, and every subsequent
`Read` — under any environment whatsoever — returns zero bytes with the very
same error and leaves the streamer unchanged; the streamer never afterwards
delivers data or switches outcome. -/
theorem c5_sticky_terminal (l : LiveFileStreamer) (env env2 : ReadEnv)
    (e : GoError) (h : (l.Read env).2.2 = some e) :
    (l.Read env).1.done = some e ∧
    (l.Read env).1.Read env2 = ((l.Read env).1, 0, some e) := by
  have hd := read_err_sets_done l env e h
  exact ⟨hd, read_of_done _ env2 e hd⟩

/-- C5 (witness): stickiness instantiated at a fresh streamer whose first read
fails; the second call returns the identical outcome. -/
theorem c5_sticky_terminal_witness :
    (LiveFileStreamer.Read initStreamer envFail).1.done =
        some (.other "read failed") ∧
    (LiveFileStreamer.Read initStreamer envFail).1.Read envData3 =
      ((LiveFileStreamer.Read initStreamer envFail).1, 0,
        some (.other "read failed")) :=
  c5_sticky_terminal initStreamer envFail envData3 (.other "read failed")
    (by decide)

/-- C2 (counterexample): the supervision goroutine of `job.New` fires the
writer-done signal (`close(processDone)`) while holding the job lock and
before either output file handle is closed — the deferred file closes run only
after the deferred unlock — so the claimed order (files closed before the
signal fires) does not hold, and the signal is observable as fired while both
output file handles are still open. -/
theorem c2_ordering_counterexample :
    supervisionTrace.indexOf SupAct.fireWriterDone <
        supervisionTrace.indexOf SupAct.closeStderrFile ∧
    supervisionTrace.indexOf SupAct.fireWriterDone <
        supervisionTrace.indexOf SupAct.closeStdoutFile ∧
    ¬ (supervisionTrace.indexOf SupAct.closeStderrFile <
        supervisionTrace.indexOf SupAct.fireWriterDone) ∧
    ¬ (supervisionTrace.indexOf SupAct.closeStdoutFile <
        supervisionTrace.indexOf SupAct.fireWriterDone) := by
  decide

/-- C2 (amended): after the child is reaped the supervision task acquires the
job lock, fires the writer-done signal and then mutates the exit-state cell —
both under the lock — releases the lock, and only then closes the stderr and
stdout file handles, in that order; the writer-done signal therefore fires
before the output file handles are closed. -/
theorem c2_ordering_amended :
    supervisionTrace.indexOf SupAct.waitChild <
        supervisionTrace.indexOf SupAct.lockJob ∧
    supervisionTrace.indexOf SupAct.lockJob <
        supervisionTrace.indexOf SupAct.fireWriterDone ∧
    supervisionTrace.indexOf SupAct.fireWriterDone <
        supervisionTrace.indexOf SupAct.setExitState ∧
    supervisionTrace.indexOf SupAct.setExitState <
        supervisionTrace.indexOf SupAct.unlockJob ∧
    supervisionTrace.indexOf SupAct.unlockJob <
        supervisionTrace.indexOf SupAct.closeStderrFile ∧
    supervisionTrace.indexOf SupAct.closeStderrFile <
        supervisionTrace.indexOf SupAct.closeStdoutFile := by
  decide

/-- C3: the derived status is `Running` exactly when the process has not
exited; `Stopped` exactly when it has exited, the `userKilled` flag is set,
and the child was terminated by the kill signal (SIGKILL); and `Complete` in
every other exited case — in particular a natural exit that races a user kill
request (exited with `userKilled` set but not killed by SIGKILL) is
`Complete`. -/
theorem c3_status_classification (pe uk : Bool) (e : Option ExitError) :
    (newState pe uk e = State.running ↔ pe = false) ∧
    (newState pe uk e = State.stopped ↔
      (pe = true ∧ uk = true ∧ e = some ⟨WaitStatus.signaled 9⟩)) ∧
    (newState pe uk e = State.complete ↔
      (pe = true ∧ ¬ (uk = true ∧ e = some ⟨WaitStatus.signaled 9⟩))) := by
  have hcne : ∀ c : Nat, (c : Int) ≠ -1 := by intro c; omega
  have hsig : ∀ s : Nat, ((s : Int) = 9) ↔ s = 9 := by intro s; omega
  cases pe <;> cases uk <;> rcases e with _ | ⟨c | s⟩ <;>
    first
      | (simp [newState, ExitError.exitCode, WaitStatus.signal, SIGKILL, hcne];
          done)
      | (simp [newState, ExitError.exitCode, WaitStatus.signal, SIGKILL, hcne,
            hsig] <;>
          by_cases hs : s = 9 <;> simp_all)

/-- C3 (witness): the classification instantiated at concrete snapshots — a
user-killed SIGKILL termination is `Stopped`, and a natural exit racing a kill
request (`userKilled` set, child exited normally with code 0) is
`Complete`. -/
theorem c3_status_classification_witness :
    newState true true (some ⟨WaitStatus.signaled 9⟩) = State.stopped ∧
    newState true true (some ⟨WaitStatus.exited 0⟩) = State.complete :=
  ⟨(c3_status_classification true true (some ⟨WaitStatus.signaled 9⟩)).2.1.mpr
      ⟨rfl, rfl, rfl⟩,
   (c3_status_classification true true (some ⟨WaitStatus.exited 0⟩)).2.2.mpr
      ⟨rfl, by simp⟩⟩

/-- C4 (counterexample): a child that exits naturally with code 0 makes
`exec.Cmd.Wait` return a nil error, so the job records no `exitErr`; its
status report is `Complete` with the exit code absent — not, as the claim
states, `Complete` with exit code 0 — both at the `Status` level and on the
RPC surface. -/
theorem c4_exit_code_counterexample :
    JobSnap.Status exitZeroJob =
      { CurrentState := State.complete, ReturnCode := none } ∧
    GetStatus aliceDir "alice" { JobId := idA } =
      Except.ok { CurrentStatus := PbStatus.complete, ExitCode := none } ∧
    (none : Option Int) ≠ some 0 := by
  exact ⟨by decide, rfl, by decide⟩

/-- C4 (amended): the status report carries an exit code exactly when the
child's wait produced an exit error, i.e. when the child exited with a
non-zero code or was terminated by a signal; a natural exit with code `c` is
reported with code `c`, a signal termination with code `-1` (so a `Stopped`
job carries `-1`, not an absent field), a child exiting with code 0 is
reported `Complete` with the exit code absent, and the RPC surface forwards
the optional code as a 32-bit value whenever the report carries one,
regardless of the status value. -/
theorem c4_exit_code_amended (j : JobSnap) (dir : JobDirectory) (user : String)
    (raw : List Nat) (jd : JobData)
    (hok : getJob dir user raw = Except.ok jd) (hj : jd.Job = j) :
    ((j.Status.ReturnCode = none) ↔ j.exitErr = none) ∧
    (∀ c : Nat, j.exitErr = some ⟨WaitStatus.exited c⟩ →
      j.Status.ReturnCode = some (c : Int)) ∧
    (∀ s : Nat, j.exitErr = some ⟨WaitStatus.signaled s⟩ →
      j.Status.ReturnCode = some (-1)) ∧
    (j.processExited = true → j.exitErr = none →
      j.Status = { CurrentState := State.complete, ReturnCode := none }) ∧
    GetStatus dir user { JobId := raw } =
      Except.ok { CurrentStatus := jobStateToStatus j.Status.CurrentState
                  ExitCode := j.Status.ReturnCode.map wrap32 } := by
  refine ⟨?_, ?_, ?_, ?_, ?_⟩
  · cases he : j.exitErr <;> simp [JobSnap.Status, he]
  · intro c hc
    simp [JobSnap.Status, hc, ExitError.exitCode]
  · intro s hs
    simp [JobSnap.Status, hs, ExitError.exitCode]
  · intro hpe hne
    simp [JobSnap.Status, hne, newState, hpe]
  · unfold GetStatus
    rw [show ({ JobId := raw } : GetStatusRequest).JobId = raw from rfl, hok]
    simp [hj]

/-- C4 (witness): the amended statement instantiated at the directory holding
the exit-0 job owned by "alice". -/
theorem c4_exit_code_amended_witness :
    ((exitZeroJob.Status.ReturnCode = none) ↔ exitZeroJob.exitErr = none) ∧
    (∀ c : Nat, exitZeroJob.exitErr = some ⟨WaitStatus.exited c⟩ →
      exitZeroJob.Status.ReturnCode = some (c : Int)) ∧
    (∀ s : Nat, exitZeroJob.exitErr = some ⟨WaitStatus.signaled s⟩ →
      exitZeroJob.Status.ReturnCode = some (-1)) ∧
    (exitZeroJob.processExited = true → exitZeroJob.exitErr = none →
      exitZeroJob.Status = { CurrentState := State.complete, ReturnCode := none }) ∧
    GetStatus aliceDir "alice" { JobId := idA } =
      Except.ok { CurrentStatus := jobStateToStatus exitZeroJob.Status.CurrentState
                  ExitCode := exitZeroJob.Status.ReturnCode.map wrap32 } :=
  c4_exit_code_amended exitZeroJob aliceDir "alice" idA
    { Owner := "alice", Job := exitZeroJob } rfl rfl

/-- C6: the watcher goroutine sends exactly one pulse per record carrying the
modify bit and continues; a record carrying the ignored bit but not the modify
bit ends the loop cleanly (and when releasing the descriptor succeeds,
`Error()` reports no cause); any other record ends the loop with the
"unexpected event" error; and in every interleaving of the goroutine's tail
with the body of `Close()` in which the `closeSync` receive completes only
after `close(closeSync)` (the channel semantics), the notification descriptor
is released only after `Close()` has removed the watch and completed the
handshake. -/
theorem c6_watcher_protocol :
    (∀ m rest, m &&& IN_MODIFY > 0 →
      watcherLoop (.event m :: rest) =
        ((watcherLoop rest).1 + 1, (watcherLoop rest).2)) ∧
    (∀ m rest, m &&& IN_MODIFY = 0 → m &&& IN_IGNORED ≠ 0 →
      watcherLoop (.event m :: rest) = (0, none) ∧
      watcherFinalError (watcherLoop (.event m :: rest)).2 none = none) ∧
    (∀ m rest, m &&& IN_MODIFY = 0 → m &&& IN_IGNORED = 0 →
      watcherLoop (.event m :: rest) = (0, some (.unexpectedEvent m))) ∧
    (∀ s ∈ interleave watcherTail closeBody,
      s.indexOf WatcherAct.closeCloseSync < s.indexOf WatcherAct.awaitCloseSync →
        s.indexOf WatcherAct.rmWatch < s.indexOf WatcherAct.releaseFd ∧
        s.indexOf WatcherAct.closeCloseSync < s.indexOf WatcherAct.releaseFd) := by
  refine ⟨?_, ?_, ?_, ?_⟩
  · intro m rest h
    simp [watcherLoop, h]
  · intro m rest h1 h2
    simp [watcherLoop, h1, h2, watcherFinalError, errJoin]
  · intro m rest h1 h2
    simp [watcherLoop, h1, h2]
  · decide

/-- C6 (witness): the per-record behaviors at concrete masks (2 = modify,
32768 = ignored, 8 = neither) and the handshake at the one schedule in which
the goroutine was already waiting when `Close()` ran. -/
theorem c6_watcher_protocol_witness :
    (watcherLoop (.event 2 :: [WatchRead.event 32768]) =
      ((watcherLoop [WatchRead.event 32768]).1 + 1,
        (watcherLoop [WatchRead.event 32768]).2)) ∧
    (watcherLoop (.event 32768 :: []) = (0, none) ∧
      watcherFinalError (watcherLoop (.event 32768 :: [])).2 none = none) ∧
    (watcherLoop (.event 8 :: []) = (0, some (.unexpectedEvent 8))) ∧
    (([WatcherAct.rmWatch, .closeCloseSync, .awaitCloseSync,
        .releaseFd] : List WatcherAct).indexOf WatcherAct.closeCloseSync <
        ([WatcherAct.rmWatch, .closeCloseSync, .awaitCloseSync,
          .releaseFd] : List WatcherAct).indexOf WatcherAct.awaitCloseSync →
      ([WatcherAct.rmWatch, .closeCloseSync, .awaitCloseSync,
        .releaseFd] : List WatcherAct).indexOf WatcherAct.rmWatch <
        ([WatcherAct.rmWatch, .closeCloseSync, .awaitCloseSync,
          .releaseFd] : List WatcherAct).indexOf WatcherAct.releaseFd ∧
      ([WatcherAct.rmWatch, .closeCloseSync, .awaitCloseSync,
        .releaseFd] : List WatcherAct).indexOf WatcherAct.closeCloseSync <
        ([WatcherAct.rmWatch, .closeCloseSync, .awaitCloseSync,
          .releaseFd] : List WatcherAct).indexOf WatcherAct.releaseFd) :=
  ⟨c6_watcher_protocol.1 2 [WatchRead.event 32768] (by decide),
   c6_watcher_protocol.2.1 32768 [] (by decide) (by decide),
   c6_watcher_protocol.2.2.1 8 [] (by decide) (by decide),
   c6_watcher_protocol.2.2.2
     [WatcherAct.rmWatch, .closeCloseSync, .awaitCloseSync, .releaseFd]
     (by decide)⟩

/-- C7: for a parseable identifier, a request by a principal who does not own
the existing job yields exactly the not-found status
`"No such job exists"`, a request for an identifier that maps to no job
yields exactly the same status, and the two results are equal — the external
surface does not distinguish the two cases. -/
theorem c7_owner_mismatch_indistinguishable
    (dir dir2 : JobDirectory) (user : String) (raw raw2 id id2 : List Nat)
    (jd : JobData)
    (hparse : uuidFromBytes raw = some id)
    (hfound : loadJob dir id = some jd)
    (hmism : jd.Owner ≠ user)
    (hparse2 : uuidFromBytes raw2 = some id2)
    (hmissing : loadJob dir2 id2 = none) :
    getJob dir user raw =
      Except.error { code := GrpcCode.notFound, msg := "No such job exists" } ∧
    getJob dir2 user raw2 =
      Except.error { code := GrpcCode.notFound, msg := "No such job exists" } ∧
    getJob dir user raw = getJob dir2 user raw2 := by
  have h1 : getJob dir user raw =
      Except.error { code := GrpcCode.notFound, msg := "No such job exists" } := by
    simp [getJob, hparse, hfound, hmism]
  have h2 : getJob dir2 user raw2 =
      Except.error { code := GrpcCode.notFound, msg := "No such job exists" } := by
    simp [getJob, hparse2, hmissing]
  exact ⟨h1, h2, h1.trans h2.symm⟩

/-- C7 (witness): "bob" querying "alice"'s job gets the same error as "bob"
querying an identifier that maps to no job. -/
theorem c7_owner_mismatch_witness :
    getJob aliceDir "bob" idA =
      Except.error { code := GrpcCode.notFound, msg := "No such job exists" } ∧
    getJob aliceDir "bob" idB =
      Except.error { code := GrpcCode.notFound, msg := "No such job exists" } ∧
    getJob aliceDir "bob" idA = getJob aliceDir "bob" idB :=
  c7_owner_mismatch_indistinguishable aliceDir aliceDir "bob" idA idB idA idB
    { Owner := "alice", Job := exitZeroJob }
    (by decide) (by decide) (by decide) (by decide) (by decide)

/-- C8: evaluation at a concrete job identifier: the registry creates the
stdout file at `{base}/{identifier}-stdout` as claimed, but the stderr file at
`{base}/{identifier}-sterr` — the source passes the literal `"sterr"` to
`outFilePath` — which differs from the claimed `{base}/{identifier}-stderr`. -/
theorem c8_output_paths_failing_input :
    StartJob "/tmp" idA { Command := "/bin/sleep", Args := ["sleep", "30"] } =
      Except.ok
        { Command := "/bin/sleep", Args := ["sleep", "30"],
          StdoutPath := "/tmp/00000000-0000-0000-0000-000000000000-stdout",
          StderrPath := "/tmp/00000000-0000-0000-0000-000000000000-sterr" } ∧
    ("/tmp/00000000-0000-0000-0000-000000000000-sterr" : String) ≠
      "/tmp/00000000-0000-0000-0000-000000000000-stderr" := by
  exact ⟨rfl, by decide⟩

/-- Helper: every error produced by `getJob` is the invalid-argument status
(exactly when the raw identifier is not 16 bytes long) or the not-found
status (exactly when it is). -/
theorem getJob_error_code (dir : JobDirectory) (user : String) (raw : List Nat)
    (st : GrpcStatus) (h : getJob dir user raw = Except.error st) :
    (raw.length ≠ 16 ∧
      st = { code := .invalidArgument, msg := "Must provide valid job id" }) ∨
    (raw.length = 16 ∧
      st = { code := .notFound, msg := "No such job exists" }) := by
  unfold getJob at h
  split at h
  case _ heq =>
    left
    have hl : raw.length ≠ 16 := by
      intro hc
      unfold uuidFromBytes at heq
      simp [hc] at heq
    injection h with h2
    exact ⟨hl, h2.symm⟩
  case _ id heq =>
    have hl : raw.length = 16 := by
      by_contra hc
      unfold uuidFromBytes at heq
      simp [hc] at heq
    right
    refine ⟨hl, ?_⟩
    split at h
    case _ jd hlj =>
      split at h
      · exact absurd h (by simp)
      · injection h with h2
        exact h2.symm
    case _ hlj =>
      injection h with h2
      exact h2.symm

/-- Helper: an error returned by `GetStatus` is exactly the error produced by
the `getJob` lookup. -/
theorem getStatus_error_from_getJob (dir : JobDirectory) (user : String)
    (req : GetStatusRequest) (st : GrpcStatus)
    (h : GetStatus dir user req = Except.error st) :
    getJob dir user req.JobId = Except.error st := by
  unfold GetStatus at h
  split at h
  case _ st2 heq =>
    injection h with h2
    rw [heq, h2]
  case _ jd heq =>
    exact Except.noConfusion h

/-- C9 (counterexample): a `GetStatus` request whose identifier payload is
empty (not a well-formed 16-byte identifier) is answered with the
invalid-argument status, which is neither not-found nor internal. -/
theorem c9_status_error_counterexample :
    GetStatus aliceDir "alice" { JobId := [] } =
      Except.error
        { code := GrpcCode.invalidArgument, msg := "Must provide valid job id" } ∧
    GrpcCode.invalidArgument ≠ GrpcCode.notFound ∧
    GrpcCode.invalidArgument ≠ GrpcCode.internal := by
  exact ⟨rfl, by decide, by decide⟩

/-- C9 (amended): every failure returned by `GetStatus` is a not-found error
or an invalid-argument error; the invalid-argument case occurs exactly when
the identifier payload is not 16 bytes long, and a well-formed 16-byte
identifier can only fail with not-found. -/
theorem c9_status_errors_amended (dir : JobDirectory) (user : String)
    (req : GetStatusRequest) (st : GrpcStatus)
    (h : GetStatus dir user req = Except.error st) :
    (st.code = GrpcCode.notFound ∨ st.code = GrpcCode.invalidArgument) ∧
    (req.JobId.length ≠ 16 → st.code = GrpcCode.invalidArgument) ∧
    (req.JobId.length = 16 → st.code = GrpcCode.notFound) := by
  have hg := getStatus_error_from_getJob dir user req st h
  rcases getJob_error_code dir user req.JobId st hg with ⟨hl, hst⟩ | ⟨hl, hst⟩
  · subst hst
    exact ⟨Or.inr rfl, fun _ => rfl, fun hc => absurd hc hl⟩
  · subst hst
    exact ⟨Or.inl rfl, fun hc => absurd hl hc, fun _ => rfl⟩

/-- C9 (witness): the amended statement instantiated at "bob" querying the
status of "alice"'s job, which fails with not-found on a 16-byte
identifier. -/
theorem c9_status_errors_amended_witness :
    (({ code := GrpcCode.notFound, msg := "No such job exists" } : GrpcStatus).code
        = GrpcCode.notFound ∨
      ({ code := GrpcCode.notFound, msg := "No such job exists" } : GrpcStatus).code
        = GrpcCode.invalidArgument) ∧
    (({ JobId := idA } : GetStatusRequest).JobId.length ≠ 16 →
      ({ code := GrpcCode.notFound, msg := "No such job exists" } : GrpcStatus).code
        = GrpcCode.invalidArgument) ∧
    (({ JobId := idA } : GetStatusRequest).JobId.length = 16 →
      ({ code := GrpcCode.notFound, msg := "No such job exists" } : GrpcStatus).code
        = GrpcCode.notFound) :=
  c9_status_errors_amended aliceDir "bob" { JobId := idA }
    { code := GrpcCode.notFound, msg := "No such job exists" } rfl

/-- C10 (counterexample): a job started over the RPC surface with an empty
args list receives the command path as its argument vector: os/exec
substitutes `{Path}` when `Args` is empty, so the child does see the command
name as argv[0] even though the caller did not include it. -/
theorem c10_argv_counterexample :
    StartJob "/tmp" idA { Command := "/bin/true", Args := [] } =
      Except.ok
        { Command := "/bin/true", Args := [],
          StdoutPath := "/tmp/00000000-0000-0000-0000-000000000000-stdout",
          StderrPath := "/tmp/00000000-0000-0000-0000-000000000000-sterr" } ∧
    (newCmd
        { Command := "/bin/true", Args := [],
          StdoutPath := "/tmp/00000000-0000-0000-0000-000000000000-stdout",
          StderrPath := "/tmp/00000000-0000-0000-0000-000000000000-sterr" }).argv
      = ["/bin/true"] ∧
    ("/bin/true" : String) ∉ ([] : List String) := by
  exact ⟨rfl, by decide, by decide⟩

/-- C10 (amended): the child's argument vector is `JobArgs.Args` verbatim
whenever `Args` is non-empty (the command path is not prepended); when `Args`
is empty the runtime falls back to the one-element vector holding the command
path; and `StartJob` passes the request's args list and command through to
`JobArgs` unchanged — so a child started over the RPC surface receives the
command name as argv[0] only if the caller included it or sent an empty args
list. -/
theorem c10_argv_amended :
    (∀ args : JobArgs, args.Args ≠ [] → (newCmd args).argv = args.Args) ∧
    (∀ args : JobArgs, args.Args = [] → (newCmd args).argv = [args.Command]) ∧
    (∀ (directory : String) (jobId : List Nat) (req : StartJobRequest)
        (jargs : JobArgs), StartJob directory jobId req = Except.ok jargs →
      jargs.Args = req.Args ∧ jargs.Command = req.Command) := by
  refine ⟨?_, ?_, ?_⟩
  · intro args h
    simp [newCmd, Cmd.argv, h]
  · intro args h
    simp [newCmd, Cmd.argv, h]
  · intro directory jobId req jargs h
    unfold StartJob at h
    by_cases hc : req.Command = "" <;> simp [hc] at h
    rw [← h]
    exact ⟨rfl, rfl⟩

/-- C10 (witness): the amended statement applied at a non-empty args list, an
empty args list, and a concrete successful `StartJob`. -/
theorem c10_argv_amended_witness :
    (newCmd
        { Command := "/bin/echo", Args := ["echo", "hi"],
          StdoutPath := "o", StderrPath := "e" }).argv = ["echo", "hi"] ∧
    (newCmd
        { Command := "/bin/true", Args := [],
          StdoutPath := "o", StderrPath := "e" }).argv = ["/bin/true"] ∧
    (({ Command := "/bin/echo", Args := ["echo", "hi"],
          StdoutPath := "/tmp/00000000-0000-0000-0000-000000000000-stdout",
          StderrPath := "/tmp/00000000-0000-0000-0000-000000000000-sterr" }
            : JobArgs).Args = ["echo", "hi"] ∧
      ({ Command := "/bin/echo", Args := ["echo", "hi"],
          StdoutPath := "/tmp/00000000-0000-0000-0000-000000000000-stdout",
          StderrPath := "/tmp/00000000-0000-0000-0000-000000000000-sterr" }
            : JobArgs).Command = "/bin/echo") :=
  ⟨c10_argv_amended.1
      { Command := "/bin/echo", Args := ["echo", "hi"],
        StdoutPath := "o", StderrPath := "e" } (by decide),
   c10_argv_amended.2.1
      { Command := "/bin/true", Args := [],
        StdoutPath := "o", StderrPath := "e" } rfl,
   c10_argv_amended.2.2 "/tmp" idA { Command := "/bin/echo", Args := ["echo", "hi"] }
      { Command := "/bin/echo", Args := ["echo", "hi"],
        StdoutPath := "/tmp/00000000-0000-0000-0000-000000000000-stdout",
        StderrPath := "/tmp/00000000-0000-0000-0000-000000000000-sterr" } rfl⟩

end Jobby
